import Mathlib

/-!
Shallow embedding of the feature-store prompt-template notebook
(docs/extras/modules/model_io/prompts/prompt_templates/connecting_to_a_feature_store.ipynb).

Modelling conventions:
- Python keyword-argument dictionaries (`**kwargs`) are association lists from
  string keys to string values; scalar feature values are represented by the
  strings they render to during substitution.
- The external feature-store clients (Feast `store`, Tecton `feature_service`,
  Featureform `client`, Azure ML `feature_set` lookup) are injected functions
  from the entity identifier to either the record of fields the notebook reads
  out of the response, or an error.
- Each adapter `format` method returns, next to its result, the list of
  externally visible events it performed (feature-store lookups and the
  invocation of the wrapped template formatter) and its own state, so that
  order-of-effects and statelessness are provable.
- Failures are values of `Err`: `keyError` models a Python `KeyError` (from
  `kwargs.pop` on an absent key or from formatting with a missing placeholder),
  `raised` models the explicit `raise` statement of the Azure ML adapter, and
  `lookupFailure` models a failure of an external feature-store client.
-/

/-- Keyword mappings: a Python dict with string keys and string-rendered values. -/
abbrev Kwargs := List (String × String)

/-- Dictionary membership and read: the value stored under key `k`, if any. -/
def lookupKey (k : String) : Kwargs → Option String
  | [] => none
  | (k2, v) :: rest => if k2 = k then some v else lookupKey k rest

/-- Dictionary removal, as performed by `kwargs.pop(k)` after a successful pop. -/
def eraseKey (k : String) : Kwargs → Kwargs
  | [] => []
  | (k2, v) :: rest => if k2 = k then eraseKey k rest else (k2, v) :: eraseKey k rest

/-- Dictionary update `kwargs[k] = v`: the new binding shadows any previous one. -/
def insertKey (k v : String) (m : Kwargs) : Kwargs :=
  (k, v) :: eraseKey k m

/-- One segment of a parsed prompt pattern: literal text, or a named placeholder. -/
inductive Seg where
  | lit (s : String)
  | var (name : String)
deriving DecidableEq, Repr

/-- A parsed prompt pattern, as produced by `PromptTemplate.from_template`. -/
abbrev Template := List Seg

/-- Errors raised by the embedded code. -/
inductive Err where
  | keyError (key : String)
  | raised (msg : String)
  | lookupFailure (msg : String)
deriving DecidableEq, Repr

/-- Externally visible events performed during one `format` call. -/
inductive Event where
  | storeLookup (entityId : String)
  | templateInvoked
deriving DecidableEq, Repr

/-- Whether an event is a feature-store lookup. -/
def isStoreLookup : Event → Bool
  | .storeLookup _ => true
  | .templateInvoked => false

/-- Modelled from the spec: `PromptTemplate.format` (library code not under
`src/`, only its notebook callers are).  Contract per the spec: given a mapping,
it produces the pattern text with every placeholder occurrence replaced by its
mapped value, and fails with a missing-key error if any placeholder in the
pattern is absent from the mapping; an error result carries no text, so no
partially substituted output is produced. -/
def formatTemplate : Template → Kwargs → Except Err String
  | [], _ => Except.ok ""
  | .lit s :: rest, m =>
    match formatTemplate rest m with
    | .error e => Except.error e
    | .ok tail => Except.ok (s ++ tail)
  | .var k :: rest, m =>
    match lookupKey k m with
    | none => Except.error (.keyError k)
    | some v =>
      match formatTemplate rest m with
      | .error e => Except.error e
      | .ok tail => Except.ok (v ++ tail)

/-- Whether a formatting outcome is a missing-key failure (a Python `KeyError`
raised for an unbound placeholder). -/
def isMissingKeyError : Except Err String → Bool
  | .error (.keyError _) => true
  | _ => false

/-- The placeholder names of a template, with multiplicity, in order. -/
def varsOf : Template → List String
  | [] => []
  | .lit _ :: rest => varsOf rest
  | .var k :: rest => k :: varsOf rest

/-- Modelled from the spec: the substituted text described by the spec of
`format` — every occurrence of each placeholder replaced by its mapped value,
with all other text reproduced verbatim.  Total by construction (an absent
placeholder renders as the empty string); it agrees with `formatTemplate`
exactly when every placeholder is present. -/
def specRender (m : Kwargs) : Template → String
  | [] => ""
  | .lit s :: rest => s ++ specRender m rest
  | .var k :: rest => (lookupKey k m).getD "" ++ specRender m rest

/-! ### The Feast pattern (notebook cells 6-9) -/

/-- The parsed form of the Feast driver-stats prompt pattern (cell 6). -/
def feastTemplate : Template :=
  [ .lit "Given the driver\x27s up to date stats, write them note relaying those stats to them.\nIf they have a conversation rate above .5, give them a compliment. Otherwise, make a silly joke about chickens at the end to make them feel better\n\nHere are the drivers stats:\nConversation rate: ",
    .var "conv_rate",
    .lit "\nAcceptance rate: ",
    .var "acc_rate",
    .lit "\nAverage Daily Trips: ",
    .var "avg_daily_trips",
    .lit "\n\nYour response:" ]

/-- The three fields the Feast adapter reads from the feature vector returned by
`store.get_online_features(...).to_dict()` (each read at index 0). -/
structure FeastFeatures where
  conv_rate : String
  acc_rate : String
  avg_daily_trips : String
deriving DecidableEq, Repr

/-- The Feast adapter.  Its static configuration is the injected feature-store
lookup handle; the wrapped pattern is the fixed `feastTemplate`. -/
structure FeastPromptTemplate where
  store : String → Except Err FeastFeatures

/-- The merge step of `FeastPromptTemplate.format`: the looked-up feature
values are written into the keyword mapping under the three canonical
placeholder names (`kwargs["conv_rate"] = ...` and so on), shadowing any
caller-supplied bindings of the same names. -/
def feastMerge (kwargs : Kwargs) (fv : FeastFeatures) : Kwargs :=
  insertKey "avg_daily_trips" fv.avg_daily_trips
    (insertKey "acc_rate" fv.acc_rate
      (insertKey "conv_rate" fv.conv_rate kwargs))

/-- `FeastPromptTemplate.format` (cell 7): pop `driver_id` (a `KeyError` if
absent), look the driver up in the feature store, merge the three feature
values into the keyword mapping, and delegate to the wrapped template. -/
def FeastPromptTemplate.format (self : FeastPromptTemplate) (kwargs : Kwargs) :
    (Except Err String × List Event) × FeastPromptTemplate :=
  match lookupKey "driver_id" kwargs with
  | none => ((Except.error (.keyError "driver_id"), []), self)
  | some driver_id =>
    match self.store driver_id with
    | .error e => ((Except.error e, [.storeLookup driver_id]), self)
    | .ok fv =>
      ((formatTemplate feastTemplate (feastMerge (eraseKey "driver_id" kwargs) fv),
        [.storeLookup driver_id, .templateInvoked]), self)

/-! ### The Tecton pattern (notebook cells 21-24) -/

/-- The parsed form of the Tecton vendor-stats prompt pattern (cell 21). -/
def tectonTemplate : Template :=
  [ .lit "Given the vendor\x27s up to date transaction stats, write them a note based on the following rules:\n\n1. If they had a transaction in the last day, write a short congratulations message on their recent sales\n2. If no transaction in the last day, but they had a transaction in the last 30 days, playfully encourage them to sell more.\n3. Always add a silly joke about chickens at the end\n\nHere are the vendor\x27s stats:\nNumber of Transactions Last Day: ",
    .var "transaction_count_1d",
    .lit "\nNumber of Transactions Last 30 Days: ",
    .var "transaction_count_30d",
    .lit "\n\nYour response:" ]

/-- The two fields the Tecton adapter reads from the feature vector, under the
keys `user_transaction_counts.transaction_count_1d_1d` and
`user_transaction_counts.transaction_count_30d_1d`. -/
structure TectonFeatures where
  transaction_count_1d_1d : String
  transaction_count_30d_1d : String
deriving DecidableEq, Repr

/-- The Tecton adapter, configured with the injected feature-service lookup. -/
structure TectonPromptTemplate where
  feature_service : String → Except Err TectonFeatures

/-- `TectonPromptTemplate.format` (cell 22): pop `user_id`, look the user up,
merge the two transaction counts, and delegate to the wrapped template. -/
def TectonPromptTemplate.format (self : TectonPromptTemplate) (kwargs : Kwargs) :
    (Except Err String × List Event) × TectonPromptTemplate :=
  match lookupKey "user_id" kwargs with
  | none => ((Except.error (.keyError "user_id"), []), self)
  | some user_id =>
    match self.feature_service user_id with
    | .error e => ((Except.error e, [.storeLookup user_id]), self)
    | .ok fv =>
      ((formatTemplate tectonTemplate
          (insertKey "transaction_count_30d" fv.transaction_count_30d_1d
            (insertKey "transaction_count_1d" fv.transaction_count_1d_1d
              (eraseKey "user_id" kwargs))),
        [.storeLookup user_id, .templateInvoked]), self)

/-! ### The Featureform pattern (notebook cells 35-38) -/

/-- The parsed form of the Featureform prompt pattern (cell 35); note the
placeholder is spelled `avg_transcation` in the source. -/
def featureformTemplate : Template :=
  [ .lit "Given the amount a user spends on average per transaction, let them know if they are a high roller. Otherwise, make a silly joke about chickens at the end to make them feel better\n\nHere are the user\x27s stats:\nAverage Amount per Transaction: $",
    .var "avg_transcation",
    .lit "\n\nYour response:" ]

/-- The Featureform adapter, configured with the injected client; its lookup
`client.features([("avg_transactions", "quickstart")], ...)` returns a value
the adapter binds to `fpf` and never uses. -/
structure FeatureformPromptTemplate where
  client : String → Except Err String

/-- `FeatureformPromptTemplate.format` (cell 36): pop `user_id`, perform the
feature lookup (binding the result to an unused local), then delegate to the
wrapped template with the remaining keyword mapping — the looked-up value is
never merged in. -/
def FeatureformPromptTemplate.format (self : FeatureformPromptTemplate)
    (kwargs : Kwargs) :
    (Except Err String × List Event) × FeatureformPromptTemplate :=
  match lookupKey "user_id" kwargs with
  | none => ((Except.error (.keyError "user_id"), []), self)
  | some user_id =>
    match self.client user_id with
    | .error e => ((Except.error e, [.storeLookup user_id]), self)
    | .ok _fpf =>
      ((formatTemplate featureformTemplate (eraseKey "user_id" kwargs),
        [.storeLookup user_id, .templateInvoked]), self)

/-! ### The Azure ML managed feature store pattern (notebook cells 47-50) -/

/-- The parsed form of the prompt pattern built in
`AzureMLFeatureStorePromptTemplate.__init__` (cell 47). -/
def azureTemplate : Template :=
  [ .lit "\n            ",
    .var "query",
    .lit "\n            ###\n            account id = ",
    .var "account_id",
    .lit "\n            account age = ",
    .var "account_age",
    .lit "\n            account country = ",
    .var "account_country",
    .lit "\n            payment rejects 1d per user = ",
    .var "payment_rejects_1d_per_user",
    .lit "\n            ###\n            " ]

/-- The three fields the Azure ML adapter reads (each at index 0) from the
dataframe returned by `get_online_features`. -/
structure AzureFeatures where
  accountAge : String
  accountCountry : String
  numPaymentRejects1dPerUser : String
deriving DecidableEq, Repr

/-- The Azure ML adapter; its static configuration is the online feature-set
lookup established in `__init__`. -/
structure AzureMLFeatureStorePromptTemplate where
  feature_set : String → Except Err AzureFeatures

/-- The text the Azure ML pattern renders to once all five placeholders are
bound: `query`, `account_id`, and the three looked-up feature fields. -/
def azureText (query account_id : String) (df : AzureFeatures) : String :=
  "\n            " ++ query ++ "\n            ###\n            account id = " ++
    account_id ++ "\n            account age = " ++ df.accountAge ++
    "\n            account country = " ++ df.accountCountry ++
    "\n            payment rejects 1d per user = " ++ df.numPaymentRejects1dPerUser ++
    "\n            ###\n            "

/-- `AzureMLFeatureStorePromptTemplate.format` (cell 47): raise if `account_id`
is absent, pop it; pop `query` if present, defaulting to the empty string;
look the account up; write `query`, `account_id` and the three feature fields
back into the keyword mapping; delegate to the wrapped template. -/
def AzureMLFeatureStorePromptTemplate.format
    (self : AzureMLFeatureStorePromptTemplate) (kwargs : Kwargs) :
    (Except Err String × List Event) × AzureMLFeatureStorePromptTemplate :=
  match lookupKey "account_id" kwargs with
  | none =>
    ((Except.error (.raised "account_id needed to fetch details from feature store"), []),
      self)
  | some account_id =>
    let kwargs1 := eraseKey "account_id" kwargs
    let query := (lookupKey "query" kwargs1).getD ""
    let kwargs2 := eraseKey "query" kwargs1
    match self.feature_set account_id with
    | .error e => ((Except.error e, [.storeLookup account_id]), self)
    | .ok df =>
      ((formatTemplate azureTemplate
          (insertKey "payment_rejects_1d_per_user" df.numPaymentRejects1dPerUser
            (insertKey "account_country" df.accountCountry
              (insertKey "account_age" df.accountAge
                (insertKey "account_id" account_id
                  (insertKey "query" query kwargs2))))),
        [.storeLookup account_id, .templateInvoked]), self)

/-! ### Concrete stub clients used to instantiate the theorems -/

/-- Stub Feast store returning the flat record of the worked notebook example:
conv_rate 0.47, acc_rate 0.06, avg_daily_trips 936. -/
def feastStub : FeastPromptTemplate :=
  ⟨fun _ => Except.ok ⟨"0.47", "0.06", "936"⟩⟩

/-- Stub Feast store whose lookup always fails. -/
def feastDown : FeastPromptTemplate :=
  ⟨fun _ => Except.error (.lookupFailure "connection refused")⟩

/-- Stub Tecton feature service whose lookup always fails. -/
def tectonDown : TectonPromptTemplate :=
  ⟨fun _ => Except.error (.lookupFailure "connection refused")⟩

/-- Stub Featureform client whose lookup always succeeds. -/
def featureformStub : FeatureformPromptTemplate :=
  ⟨fun _ => Except.ok "avg_transactions"⟩

/-- Stub Azure ML feature-set lookup returning a fixed record. -/
def azureStub : AzureMLFeatureStorePromptTemplate :=
  ⟨fun _ => Except.ok ⟨"30", "GB", "3"⟩⟩

/-! ### Shared lemmas about keyword mappings and the template formatter -/

theorem lookup_erase_ne (k k2 : String) (m : Kwargs) (h : ¬ k = k2) :
    lookupKey k (eraseKey k2 m) = lookupKey k m := by
  induction m with
  | nil => rfl
  | cons p rest ih =>
    obtain ⟨k3, v⟩ := p
    by_cases h3 : k3 = k2
    · have hk2 : ¬ k2 = k := fun hh => h hh.symm
      simp [eraseKey, lookupKey, h3, hk2, ih]
    · by_cases hk : k3 = k
      · simp [eraseKey, lookupKey, h3, hk, h]
      · simp [eraseKey, lookupKey, h3, hk, ih]

theorem lookup_insert (k k2 v : String) (m : Kwargs) :
    lookupKey k (insertKey k2 v m) = if k2 = k then some v else lookupKey k m := by
  by_cases h : k2 = k
  · simp [insertKey, lookupKey, h]
  · simp [insertKey, lookupKey, h, lookup_erase_ne k k2 m (fun hh => h hh.symm)]

theorem formatTemplate_complete (t : Template) (m : Kwargs)
    (h : ∀ k ∈ varsOf t, (lookupKey k m).isSome) :
    formatTemplate t m = Except.ok (specRender m t) := by
  induction t with
  | nil => rfl
  | cons seg rest ih =>
    cases seg with
    | lit s =>
      have hr := ih (fun k hk => h k (by simpa [varsOf] using hk))
      simp [formatTemplate, specRender, hr]
    | var k =>
      have hk := h k (by simp [varsOf])
      obtain ⟨v, hv⟩ := Option.isSome_iff_exists.mp hk
      have hr := ih (fun k2 hk2 => h k2 (by simp [varsOf, hk2]))
      simp [formatTemplate, specRender, hv, hr]

theorem formatTemplate_missing (t : Template) (m : Kwargs)
    (h : ∃ k, k ∈ varsOf t ∧ lookupKey k m = none) :
    ∃ k, lookupKey k m = none ∧ formatTemplate t m = Except.error (Err.keyError k) := by
  induction t with
  | nil =>
    obtain ⟨k, hk, _⟩ := h
    simp [varsOf] at hk
  | cons seg rest ih =>
    cases seg with
    | lit s =>
      obtain ⟨k, hk, hn⟩ := h
      obtain ⟨k2, hn2, he⟩ := ih ⟨k, by simpa [varsOf] using hk, hn⟩
      exact ⟨k2, hn2, by simp [formatTemplate, he]⟩
    | var k0 =>
      cases hl : lookupKey k0 m with
      | none => exact ⟨k0, hl, by simp [formatTemplate, hl]⟩
      | some v =>
        obtain ⟨k, hk, hn⟩ := h
        have hkr : k ∈ varsOf rest := by
          simp [varsOf] at hk
          cases hk with
          | inl hh =>
            subst hh
            rw [hl] at hn
            cases hn
          | inr hh => exact hh
        obtain ⟨k2, hn2, he⟩ := ih ⟨k, hkr, hn⟩
        exact ⟨k2, hn2, by simp [formatTemplate, hl, he]⟩

/-! ### The claims -/

/-- C1: whenever the entity identifier key is absent from the keyword mapping
(`driver_id` for the Feast adapter, `account_id` for the Azure ML adapter),
`format` fails at once with the input-validation error for that key — the
`KeyError` raised by `kwargs.pop("driver_id")`, respectively the explicit
`raise` of the Azure ML adapter — and the empty event trace shows that no
feature-store lookup occurs. -/
theorem claim1_missing_entity_id_fails_before_lookup
    (a : FeastPromptTemplate) (b : AzureMLFeatureStorePromptTemplate)
    (kw1 kw2 : Kwargs)
    (h1 : lookupKey "driver_id" kw1 = none)
    (h2 : lookupKey "account_id" kw2 = none) :
    a.format kw1 = ((Except.error (Err.keyError "driver_id"), []), a) ∧
    b.format kw2 =
      ((Except.error (Err.raised "account_id needed to fetch details from feature store"),
        []), b) := by
  constructor
  · simp [FeastPromptTemplate.format, h1]
  · simp [AzureMLFeatureStorePromptTemplate.format, h2]

/-- Witness for C1: both adapter calls at the empty keyword mapping. -/
theorem claim1_missing_entity_id_fails_before_lookup_witness :
    lookupKey "driver_id" ([] : Kwargs) = none ∧
    lookupKey "account_id" ([] : Kwargs) = none ∧
    (feastDown.format [] = ((Except.error (Err.keyError "driver_id"), []), feastDown) ∧
      azureStub.format [] =
        ((Except.error (Err.raised "account_id needed to fetch details from feature store"),
          []), azureStub)) :=
  ⟨rfl, rfl, claim1_missing_entity_id_fails_before_lookup feastDown azureStub [] [] rfl rfl⟩

/-- C2: for every template and every keyword mapping from which some
placeholder of the template is absent, formatting fails with a missing-key
error; the `Except` result carries no text, so no partially substituted output
is produced. -/
theorem claim2_missing_placeholder_fails (t : Template) (m : Kwargs) (k : String)
    (h1 : k ∈ varsOf t) (h2 : lookupKey k m = none) :
    isMissingKeyError (formatTemplate t m) = true := by
  obtain ⟨k2, _, he⟩ := formatTemplate_missing t m ⟨k, h1, h2⟩
  rw [he]
  rfl

/-- Witness for C2: the Feast pattern formatted with only `conv_rate` bound. -/
theorem claim2_missing_placeholder_fails_witness :
    "acc_rate" ∈ varsOf feastTemplate ∧
    lookupKey "acc_rate" [("conv_rate", "0.47")] = none ∧
    isMissingKeyError (formatTemplate feastTemplate [("conv_rate", "0.47")]) = true :=
  ⟨by decide, rfl,
    claim2_missing_placeholder_fails feastTemplate [("conv_rate", "0.47")] "acc_rate"
      (by decide) rfl⟩

/-- C3: for every template and every keyword mapping binding all of its
placeholders, formatting succeeds and returns the pattern text with every
occurrence of each placeholder replaced by its mapped value and all other text
reproduced verbatim — the text described by `specRender`, which is written
from the words of the spec. -/
theorem claim3_complete_mapping_formats (t : Template) (m : Kwargs)
    (h : ∀ k ∈ varsOf t, (lookupKey k m).isSome) :
    formatTemplate t m = Except.ok (specRender m t) :=
  formatTemplate_complete t m h

/-- Witness for C3: the Feast pattern formatted with all three placeholders
bound. -/
theorem claim3_complete_mapping_formats_witness :
    (∀ k ∈ varsOf feastTemplate,
      (lookupKey k [("conv_rate", "0.47"), ("acc_rate", "0.06"),
        ("avg_daily_trips", "936")]).isSome) ∧
    formatTemplate feastTemplate
        [("conv_rate", "0.47"), ("acc_rate", "0.06"), ("avg_daily_trips", "936")] =
      Except.ok
        (specRender [("conv_rate", "0.47"), ("acc_rate", "0.06"), ("avg_daily_trips", "936")]
          feastTemplate) :=
  ⟨by decide,
    claim3_complete_mapping_formats feastTemplate
      [("conv_rate", "0.47"), ("acc_rate", "0.06"), ("avg_daily_trips", "936")] (by decide)⟩

/-- C4: if the external lookup fails on an adapter call in which the entity
identifier is present, `format` returns exactly the lookup error and the event
trace contains only the store lookup: the wrapped template formatter is never
invoked and no output text, partial or complete, is produced.  Shown for the
Feast and Tecton adapters. -/
theorem claim4_lookup_failure_skips_template
    (a : FeastPromptTemplate) (b : TectonPromptTemplate) (kw1 kw2 : Kwargs)
    (d u : String) (e1 e2 : Err)
    (h1 : lookupKey "driver_id" kw1 = some d)
    (h2 : a.store d = Except.error e1)
    (h3 : lookupKey "user_id" kw2 = some u)
    (h4 : b.feature_service u = Except.error e2) :
    a.format kw1 = ((Except.error e1, [Event.storeLookup d]), a) ∧
    b.format kw2 = ((Except.error e2, [Event.storeLookup u]), b) := by
  constructor
  · simp [FeastPromptTemplate.format, h1, h2]
  · simp [TectonPromptTemplate.format, h3, h4]

/-- Witness for C4: the failing stub clients at the notebook's entity ids. -/
theorem claim4_lookup_failure_skips_template_witness :
    lookupKey "driver_id" [("driver_id", "1001")] = some "1001" ∧
    feastDown.store "1001" = Except.error (Err.lookupFailure "connection refused") ∧
    lookupKey "user_id" [("user_id", "user_469998441571")] = some "user_469998441571" ∧
    tectonDown.feature_service "user_469998441571" =
      Except.error (Err.lookupFailure "connection refused") ∧
    (feastDown.format [("driver_id", "1001")] =
        ((Except.error (Err.lookupFailure "connection refused"),
          [Event.storeLookup "1001"]), feastDown) ∧
      tectonDown.format [("user_id", "user_469998441571")] =
        ((Except.error (Err.lookupFailure "connection refused"),
          [Event.storeLookup "user_469998441571"]), tectonDown)) :=
  ⟨rfl, rfl, rfl, rfl,
    claim4_lookup_failure_skips_template feastDown tectonDown
      [("driver_id", "1001")] [("user_id", "user_469998441571")]
      "1001" "user_469998441571" _ _ rfl rfl rfl rfl⟩

set_option maxRecDepth 10000 in
/-- C5: with driver id 1001 and the stub lookup returning the flat record
conv_rate 0.47, acc_rate 0.06, avg_daily_trips 936, the Feast adapter output
is the template text with the literal substrings "0.47", "0.06" and "936" at
the three placeholder positions. -/
theorem claim5_feast_worked_example :
    (feastStub.format [("driver_id", "1001")]).1.1 =
      Except.ok
        ("Given the driver\x27s up to date stats, write them note relaying those stats to them.\nIf they have a conversation rate above .5, give them a compliment. Otherwise, make a silly joke about chickens at the end to make them feel better\n\nHere are the drivers stats:\nConversation rate: " ++
          "0.47" ++ "\nAcceptance rate: " ++ "0.06" ++ "\nAverage Daily Trips: " ++
          "936" ++ "\n\nYour response:") := by
  rfl

/-- C6: the Feast adapter formats the wrapped template with the merged mapping
`feastMerge`, in which each of the three canonical feature placeholders
`conv_rate`, `acc_rate` and `avg_daily_trips` is bound to the looked-up value —
shadowing any caller-supplied binding of the same name, for every keyword
mapping — so the output text always reflects the looked-up values for those
three placeholders. -/
theorem claim6_lookup_overwrites_caller_values
    (a : FeastPromptTemplate) (kw : Kwargs) (d : String) (fv : FeastFeatures)
    (h1 : lookupKey "driver_id" kw = some d)
    (h2 : a.store d = Except.ok fv) :
    a.format kw =
      ((formatTemplate feastTemplate (feastMerge (eraseKey "driver_id" kw) fv),
        [Event.storeLookup d, Event.templateInvoked]), a) ∧
    lookupKey "conv_rate" (feastMerge (eraseKey "driver_id" kw) fv) = some fv.conv_rate ∧
    lookupKey "acc_rate" (feastMerge (eraseKey "driver_id" kw) fv) = some fv.acc_rate ∧
    lookupKey "avg_daily_trips" (feastMerge (eraseKey "driver_id" kw) fv) =
      some fv.avg_daily_trips := by
  refine ⟨by simp [FeastPromptTemplate.format, h1, h2], ?_, ?_, ?_⟩
  · simp [feastMerge, lookup_insert]
  · simp [feastMerge, lookup_insert]
  · simp [feastMerge, lookup_insert]

/-- Witness for C6: the caller supplies conv_rate 0.99, the stub lookup
returns 0.47. -/
theorem claim6_lookup_overwrites_caller_values_witness :
    lookupKey "driver_id" [("driver_id", "1001"), ("conv_rate", "0.99")] = some "1001" ∧
    feastStub.store "1001" = Except.ok ⟨"0.47", "0.06", "936"⟩ ∧
    (feastStub.format [("driver_id", "1001"), ("conv_rate", "0.99")] =
        ((formatTemplate feastTemplate
            (feastMerge (eraseKey "driver_id" [("driver_id", "1001"), ("conv_rate", "0.99")])
              ⟨"0.47", "0.06", "936"⟩),
          [Event.storeLookup "1001", Event.templateInvoked]), feastStub) ∧
      lookupKey "conv_rate"
          (feastMerge (eraseKey "driver_id" [("driver_id", "1001"), ("conv_rate", "0.99")])
            ⟨"0.47", "0.06", "936"⟩) = some "0.47" ∧
      lookupKey "acc_rate"
          (feastMerge (eraseKey "driver_id" [("driver_id", "1001"), ("conv_rate", "0.99")])
            ⟨"0.47", "0.06", "936"⟩) = some "0.06" ∧
      lookupKey "avg_daily_trips"
          (feastMerge (eraseKey "driver_id" [("driver_id", "1001"), ("conv_rate", "0.99")])
            ⟨"0.47", "0.06", "936"⟩) = some "936") :=
  ⟨rfl, rfl,
    claim6_lookup_overwrites_caller_values feastStub
      [("driver_id", "1001"), ("conv_rate", "0.99")] "1001" ⟨"0.47", "0.06", "936"⟩ rfl rfl⟩

/-- C7: on every adapter call with the entity identifier present, the injected
lookup is invoked exactly once (the event trace contains exactly one
feature-store lookup, at the supplied id), and if the lookup raises an error it
propagates unchanged to the caller with no retry.  Shown for the Feast and
Tecton adapters. -/
theorem claim7_lookup_once_error_propagates
    (a : FeastPromptTemplate) (b : TectonPromptTemplate) (kw1 kw2 : Kwargs)
    (d u : String)
    (h1 : lookupKey "driver_id" kw1 = some d)
    (h2 : lookupKey "user_id" kw2 = some u) :
    ((a.format kw1).1.2.filter isStoreLookup = [Event.storeLookup d] ∧
      ∀ e, a.store d = Except.error e → (a.format kw1).1.1 = Except.error e) ∧
    ((b.format kw2).1.2.filter isStoreLookup = [Event.storeLookup u] ∧
      ∀ e, b.feature_service u = Except.error e → (b.format kw2).1.1 = Except.error e) := by
  constructor
  · cases hs : a.store d with
    | error e =>
      refine ⟨by simp [FeastPromptTemplate.format, h1, hs, isStoreLookup], ?_⟩
      intro e2 he2
      have he : e2 = e := by
        injection he2 with hh
        exact hh.symm
      subst he
      simp [FeastPromptTemplate.format, h1, hs]
    | ok fv =>
      refine ⟨by simp [FeastPromptTemplate.format, h1, hs, isStoreLookup], ?_⟩
      intro e2 he2
      exact Except.noConfusion he2
  · cases hs : b.feature_service u with
    | error e =>
      refine ⟨by simp [TectonPromptTemplate.format, h2, hs, isStoreLookup], ?_⟩
      intro e2 he2
      have he : e2 = e := by
        injection he2 with hh
        exact hh.symm
      subst he
      simp [TectonPromptTemplate.format, h2, hs]
    | ok fv =>
      refine ⟨by simp [TectonPromptTemplate.format, h2, hs, isStoreLookup], ?_⟩
      intro e2 he2
      exact Except.noConfusion he2

/-- Witness for C7: the failing stub clients at the notebook's entity ids. -/
theorem claim7_lookup_once_error_propagates_witness :
    lookupKey "driver_id" [("driver_id", "1001")] = some "1001" ∧
    lookupKey "user_id" [("user_id", "user_469998441571")] = some "user_469998441571" ∧
    (((feastDown.format [("driver_id", "1001")]).1.2.filter isStoreLookup =
        [Event.storeLookup "1001"] ∧
      ∀ e, feastDown.store "1001" = Except.error e →
        (feastDown.format [("driver_id", "1001")]).1.1 = Except.error e) ∧
    ((tectonDown.format [("user_id", "user_469998441571")]).1.2.filter isStoreLookup =
        [Event.storeLookup "user_469998441571"] ∧
      ∀ e, tectonDown.feature_service "user_469998441571" = Except.error e →
        (tectonDown.format [("user_id", "user_469998441571")]).1.1 = Except.error e)) :=
  ⟨rfl, rfl,
    claim7_lookup_once_error_propagates feastDown tectonDown
      [("driver_id", "1001")] [("user_id", "user_469998441571")]
      "1001" "user_469998441571" rfl rfl⟩

/-- C8: the Feast adapter holds no mutable state between calls — a `format`
call leaves the static configuration (the lookup handle, and with it the fixed
pattern and rename table) unchanged, and a second call with the same keyword
mapping against the unchanged configuration returns the same result. -/
theorem claim8_adapter_stateless (a : FeastPromptTemplate) (kw : Kwargs) :
    (a.format kw).2 = a ∧ (a.format kw).2.format kw = a.format kw := by
  have h : (a.format kw).2 = a := by
    cases hl : lookupKey "driver_id" kw with
    | none => simp [FeastPromptTemplate.format, hl]
    | some d => cases hs : a.store d <;> simp [FeastPromptTemplate.format, hl, hs]
  exact ⟨h, by rw [h]⟩

/-- Formatting the Azure ML pattern against the mapping built by the merge
step of `AzureMLFeatureStorePromptTemplate.format` succeeds and yields
`azureText`, whatever the remaining caller-supplied keywords are. -/
theorem azure_template_render (q acct : String) (df : AzureFeatures) (m : Kwargs) :
    formatTemplate azureTemplate
      (insertKey "payment_rejects_1d_per_user" df.numPaymentRejects1dPerUser
        (insertKey "account_country" df.accountCountry
          (insertKey "account_age" df.accountAge
            (insertKey "account_id" acct
              (insertKey "query" q m))))) = Except.ok (azureText q acct df) := by
  simp [azureTemplate, formatTemplate, lookup_insert, azureText, String.append_assoc]

set_option maxRecDepth 10000 in
/-- C9 counterexample: the Featureform adapter does not fail for every input —
supplying `avg_transcation` directly as a keyword argument makes the call
succeed with fully substituted text. -/
theorem claim9_counterexample :
    (featureformStub.format [("user_id", "C1410926"), ("avg_transcation", "10")]).1.1 =
      Except.ok
        ("Given the amount a user spends on average per transaction, let them know if they are a high roller. Otherwise, make a silly joke about chickens at the end to make them feel better\n\nHere are the user\x27s stats:\nAverage Amount per Transaction: $" ++
          "10" ++ "\n\nYour response:") := by
  rfl

/-- C9 (amended): on every Featureform adapter call in which the feature
lookup succeeds and the caller does not itself supply `avg_transcation` — in
particular the documented call carrying only `user_id` — `format` fails with a
missing-key error for `avg_transcation`: the lookup is performed, but its
result is never merged into the keyword mapping, so the placeholder is absent
when the wrapped template is invoked. -/
theorem claim9_amended_lookup_never_merged
    (a : FeatureformPromptTemplate) (kw : Kwargs) (u r : String)
    (h1 : lookupKey "user_id" kw = some u)
    (h2 : a.client u = Except.ok r)
    (h3 : lookupKey "avg_transcation" kw = none) :
    (a.format kw).1 =
      (Except.error (Err.keyError "avg_transcation"),
        [Event.storeLookup u, Event.templateInvoked]) := by
  have hm : lookupKey "avg_transcation" (eraseKey "user_id" kw) = none := by
    rw [lookup_erase_ne "avg_transcation" "user_id" kw (by decide)]
    exact h3
  simp [FeatureformPromptTemplate.format, h1, h2, formatTemplate, featureformTemplate, hm]

/-- Witness for the amended C9: the documented call `format(user_id="C1410926")`
against the succeeding stub client. -/
theorem claim9_amended_lookup_never_merged_witness :
    lookupKey "user_id" [("user_id", "C1410926")] = some "C1410926" ∧
    featureformStub.client "C1410926" = Except.ok "avg_transactions" ∧
    lookupKey "avg_transcation" [("user_id", "C1410926")] = none ∧
    (featureformStub.format [("user_id", "C1410926")]).1 =
      (Except.error (Err.keyError "avg_transcation"),
        [Event.storeLookup "C1410926", Event.templateInvoked]) :=
  ⟨rfl, rfl, rfl,
    claim9_amended_lookup_never_merged featureformStub [("user_id", "C1410926")]
      "C1410926" "avg_transactions" rfl rfl rfl⟩

/-- C10: for the Azure ML adapter the `query` field is optional — with
`account_id` present and the lookup succeeding, a call without `query`
succeeds and substitutes the empty string at the query placeholder, and a call
with `query` substitutes the caller's value verbatim (`azureText` places each
value at its placeholder position). -/
theorem claim10_query_optional
    (a : AzureMLFeatureStorePromptTemplate) (kw : Kwargs) (acct : String)
    (df : AzureFeatures)
    (h1 : lookupKey "account_id" kw = some acct)
    (h2 : a.feature_set acct = Except.ok df) :
    (lookupKey "query" kw = none →
      (a.format kw).1.1 = Except.ok (azureText "" acct df)) ∧
    ∀ q, lookupKey "query" kw = some q →
      (a.format kw).1.1 = Except.ok (azureText q acct df) := by
  constructor
  · intro hq
    have hq1 : lookupKey "query" (eraseKey "account_id" kw) = none := by
      rw [lookup_erase_ne "query" "account_id" kw (by decide)]
      exact hq
    simp [AzureMLFeatureStorePromptTemplate.format, h1, h2, hq1, azure_template_render]
  · intro q hq
    have hq1 : lookupKey "query" (eraseKey "account_id" kw) = some q := by
      rw [lookup_erase_ne "query" "account_id" kw (by decide)]
      exact hq
    simp [AzureMLFeatureStorePromptTemplate.format, h1, h2, hq1, azure_template_render]

/-- Witness for C10: the notebook account id against the stub lookup, once
without and once with a caller-supplied query. -/
theorem claim10_query_optional_witness :
    lookupKey "account_id" [("account_id", "A1829581630230790")] =
      some "A1829581630230790" ∧
    azureStub.feature_set "A1829581630230790" = Except.ok ⟨"30", "GB", "3"⟩ ∧
    lookupKey "query" [("account_id", "A1829581630230790")] = none ∧
    lookupKey "query" [("account_id", "A1829581630230790"), ("query", "write a note")] =
      some "write a note" ∧
    (azureStub.format [("account_id", "A1829581630230790")]).1.1 =
      Except.ok (azureText "" "A1829581630230790" ⟨"30", "GB", "3"⟩) ∧
    (azureStub.format
        [("account_id", "A1829581630230790"), ("query", "write a note")]).1.1 =
      Except.ok (azureText "write a note" "A1829581630230790" ⟨"30", "GB", "3"⟩) :=
  ⟨rfl, rfl, rfl, rfl,
    (claim10_query_optional azureStub [("account_id", "A1829581630230790")]
        "A1829581630230790" ⟨"30", "GB", "3"⟩ rfl rfl).1 rfl,
    (claim10_query_optional azureStub
        [("account_id", "A1829581630230790"), ("query", "write a note")]
        "A1829581630230790" ⟨"30", "GB", "3"⟩ rfl rfl).2 "write a note" rfl⟩
